import Mathlib

/-!
Verification development for the BitBLAS repository slice:
hardware tile-device profiles (`bitblas/base/arch/rdna.py`,
`bitblas/base/arch/MI250.py`) and the operator / executor core
(`bitblas/ops/operator.py`).

The Python source is shallowly embedded: pure helpers become Lean
functions, methods that mutate `self` become explicit state-passing
functions on an `OpState` record, calls into the external TVM toolchain
become oracle parameters (`Except String _` results standing for the
external call either returning or raising), and Python exceptions become
`Except.error` carrying the message text.
-/

namespace BitBLAS

/-! ## String helpers mirroring the Python builtins used by the source -/

/-- Python `str.replace("gfx", "")`: delete every (left-to-right,
non-overlapping) occurrence of the three-character substring `gfx`. -/
def removeSubstrGfx : List Char → List Char
  | 'g' :: 'f' :: 'x' :: rest => removeSubstrGfx rest
  | c :: rest => c :: removeSubstrGfx rest
  | [] => []

/-- Python `str.isdigit()` restricted to ASCII: true iff the string is
nonempty and every character is a decimal digit. -/
def pyIsDigit (s : String) : Bool :=
  !s.data.isEmpty && s.data.all Char.isDigit

/-- Decimal value of a digit string, as Python `int(...)` computes it on an
all-digit string. -/
def digitsToNat (l : List Char) : Nat :=
  l.foldl (fun acc c => 10 * acc + (c.toNat - '0'.toNat)) 0

/-- Python `str.replace(".", "")`: drop every dot character. -/
def removeDots (s : String) : String :=
  ⟨s.data.filter (fun c => c ≠ '.')⟩

/-! ## `bitblas/base/arch/rdna.py` -/

/-- `check_gfx_version` from `rdna.py`:
`gfx_version = arch.replace("gfx", "")` followed by
`int(gfx_version) if gfx_version.isdigit() else -1`. -/
def check_gfx_version (arch : String) : Int :=
  let gfx_version : String := ⟨removeSubstrGfx arch.data⟩
  if pyIsDigit gfx_version then (digitsToNat gfx_version.data : Int) else -1

/-- What the specification text describes for `check_gfx_version`: strip
the literal `"gfx"` PREFIX, then convert the remaining suffix when it is
purely digits, else return `-1`. Kept separate so it can be compared with
the embedding of the source. -/
def check_gfx_version_prefix_spec (arch : String) : Int :=
  let suffix : String := if "gfx".data.isPrefixOf arch.data then ⟨arch.data.drop 3⟩ else arch
  if pyIsDigit suffix then (digitsToNat suffix.data : Int) else -1

/-- Capability registers probed from the live HIP device in
`RDNA.__init__` (`tvm.runtime.hip(0)`). `exist` models `device.exist`. -/
structure DeviceProps where
  exist : Bool
  max_shared_memory_per_block : Nat
  multi_processor_count : Nat
  warp_size : Nat
  compute_version : String
  deriving DecidableEq, Repr

/-- The fields of the TVM target descriptor read by `RDNA.__init__`. -/
structure TargetDesc where
  arch : String
  l2_cache_size_bytes : Nat
  deriving DecidableEq, Repr

/-- The runtime-probed RDNA hardware profile (`rdna.py`). Lean structures
are immutable, matching the read-only-after-construction contract. -/
structure RDNA where
  target : TargetDesc
  gfx_version : Int
  platform : String
  smem_cap : Nat
  compute_max_core : Nat
  warp_size : Nat
  compute_capability : String
  reg_cap : Nat
  max_smem_usage : Nat
  sm_partition : Nat
  l2_cache_size_bytes : Nat
  transaction_size : List Nat
  bandwidth : List Nat
  deriving DecidableEq, Repr

/-- `RDNA.__init__`: computes the gfx version, probes HIP device 0 and
raises `RuntimeError("Cannot find HIP device 0.")` when it does not
exist; otherwise fills every field from the probed device and the target
descriptor, with `max_smem_usage = 2 * smem_cap`. -/
def RDNA.init (target : TargetDesc) (device : DeviceProps) : Except String RDNA :=
  let gfx_version := check_gfx_version target.arch
  if !device.exist then
    .error "Cannot find HIP device 0."
  else
    .ok { target := target
          gfx_version := gfx_version
          platform := "RDNA"
          smem_cap := device.max_shared_memory_per_block
          compute_max_core := device.multi_processor_count
          warp_size := device.warp_size
          compute_capability := removeDots device.compute_version
          reg_cap := 32768
          max_smem_usage := 2 * device.max_shared_memory_per_block
          sm_partition := 4
          l2_cache_size_bytes := target.l2_cache_size_bytes
          transaction_size := [32, 128]
          bandwidth := [1300, 14000] }

/-! ## `bitblas/base/arch/MI250.py` -/

/-- The fixed MI250 hardware profile (`MI250.py`). -/
structure MI250 where
  reg_cap : Nat
  smem_cap : Nat
  compute_max_core : Nat
  warp_size : Nat
  sm_partition : Nat
  transaction_size : List Nat
  max_smem_usage : Nat
  bandwidth : List Nat
  platform : String
  compute_capability : String
  target : String
  deriving DecidableEq, Repr

/-- `MI250.__init__`: hard-coded constants, no probing, total (never
fails). -/
def MI250.init : MI250 :=
  { reg_cap := 32768
    smem_cap := 65536
    compute_max_core := 104
    warp_size := 64
    sm_partition := 4
    transaction_size := [32, 128]
    max_smem_usage := 0
    bandwidth := [1300, 14000]
    platform := "ROCm-CDNA2"
    compute_capability := "gfx90a"
    target := "hip --mcpu=gfx90a" }

/-! ## `bitblas/ops/operator.py` — data model

TVM objects are embedded structurally: a `PrimFunc` keeps exactly the
attributes the operator code reads (parameters, buffer map, the
`opt_shapes` attribute, the `global_symbol` attribute, plus an opaque
body identifier so distinct functions compare unequal); an `IRModule` is
an association list from global-variable name to function. -/

/-- A TVM shape expression as inspected by `var_warpper` in
`Operator.get_profile_tensors`: a `tir.Var`, a `tir.IntImm`, or any other
runtime type (kept as its type name, used in the error message). -/
inductive ShapeExpr where
  | var (name : String)
  | intImm (value : Int)
  | other (typeName : String)
  deriving DecidableEq, Repr

/-- One entry of the `opt_shapes` function attribute: a `tir.IntImm`, an
`ir.container.Array` of `IntImm`s, or any other runtime type. -/
inductive OptShapeEntry where
  | intImm (value : Int)
  | array (values : List Int)
  | other (typeName : String)
  deriving DecidableEq, Repr

/-- A buffer bound in a `PrimFunc`'s buffer map. -/
structure Buffer where
  shape : List ShapeExpr
  dtype : String
  deriving DecidableEq, Repr

/-- The slice of a TVM `PrimFunc` the operator code reads. -/
structure PrimFunc where
  params : List String
  buffer_map : List (String × Buffer)
  opt_shapes : Option (List (String × OptShapeEntry))
  global_symbol : Option String
  body : Nat
  deriving DecidableEq, Repr

/-- `func.with_attr("global_symbol", name)`. -/
def PrimFunc.with_global_symbol (f : PrimFunc) (name : String) : PrimFunc :=
  { f with global_symbol := some name }

/-- Python dict / TVM module item assignment on an association list:
overwrite in place when the key exists, else append. -/
def assocSet {β : Type} (d : List (String × β)) (k : String) (v : β) :
    List (String × β) :=
  if (d.lookup k).isSome then
    d.map (fun p => if p.1 = k then (k, v) else p)
  else
    d ++ [(k, v)]

/-- A TVM `IRModule`: global-variable names mapped to functions. -/
structure IRModule where
  functions : List (String × PrimFunc)
  deriving DecidableEq, Repr

/-- `mod.get_global_vars()`. -/
def IRModule.get_global_vars (m : IRModule) : List String :=
  m.functions.map Prod.fst

/-- `name in mod`. -/
def IRModule.hasGlobal (m : IRModule) (name : String) : Bool :=
  (m.functions.lookup name).isSome

/-- `mod[name] = func`. -/
def IRModule.setItem (m : IRModule) (name : String) (f : PrimFunc) : IRModule :=
  ⟨assocSet m.functions name f⟩

/-- A compiled TVM runtime artifact (opaque handle). -/
structure RtMod where
  id : Nat
  deriving DecidableEq, Repr

/-- Log levels used by `operator.py`. -/
inductive LogLevel where
  | debug
  | info
  | warning
  deriving DecidableEq, Repr

/-- One emitted log record. -/
structure LogMsg where
  level : LogLevel
  text : String
  deriving DecidableEq, Repr

/-- `APPLY_SCHEDULE_FAILED_MESSAGE.format(cls, target, hint, err)`
(module-level template in `operator.py`). -/
def APPLY_SCHEDULE_FAILED_MESSAGE (cls target hint err : String) : String :=
  "Failed to apply default schedule for operator " ++ cls ++ " With target " ++
    target ++ " and hint " ++ hint ++ ". \nThe error message: " ++ err ++
    " Please perform hardware-aware tuning manually."

/-- `BUILD_RUNTIME_LIBRARY_FAILED_MESSAGE.format(cls, target, hint, err)`. -/
def BUILD_RUNTIME_LIBRARY_FAILED_MESSAGE (cls target hint err : String) : String :=
  "Failed to build runtime library for operator " ++ cls ++ " With target " ++
    target ++ " and hint " ++ hint ++ ". \nThe error message: " ++ err ++
    " Please perform hardware-aware tuning manually."

/-- The mutable state of an `Operator` instance that the embedded methods
read or write, plus the identification data (`__class__.__name__`,
`name`, `target`, `arch.platform`) interpolated into messages. -/
structure OpState where
  cls : String
  name : String
  target : String
  platform : String
  prim_func_mod : IRModule
  optimized_mod : Option IRModule
  rt_mod : Option RtMod
  time_evaluator : Option RtMod
  torch_func : Option RtMod
  lib : Option Nat
  pass_context : List (String × Bool)
  dynamic_range : Option (List (String × List Int))
  deriving DecidableEq, Repr

/-- The configuration object attached to a fast-tune best result
(`best.config`): its captured pass context plus an opaque identity. -/
structure TuneConfig where
  pass_context : List (String × Bool)
  hint_id : Nat
  deriving DecidableEq, Repr

/-- A fast-tune best result: `best.sch.mod` and `best.config`. -/
structure TuneBest where
  sch_mod : IRModule
  config : TuneConfig
  deriving DecidableEq, Repr

/-- The external TVM build/wrap calls made by `_build_runtime_module`,
abstracted as oracles: each returns the artifact or the exception the
call raised. -/
structure BuildOracles where
  buildOpt : IRModule → List (String × Bool) → Except String RtMod
  buildPrim : PrimFunc → Except String RtMod
  libPipeline : IRModule → Except String Nat

/-! ## `operator.py` — embedded methods -/

/-- The `prim_func` property: the unique global function when there is
exactly one, else the function named `main`, else
`ValueError("Unable to determine primary function.")`. -/
def prim_func_of (m : IRModule) : Except String PrimFunc :=
  match m.functions with
  | [(_, f)] => .ok f
  | fs =>
    match fs.lookup "main" with
    | some f => .ok f
    | none => .error "Unable to determine primary function."

/-- `Operator.update_func`: `self.prim_func_mod["main"] = func`. -/
def Operator.update_func (m : IRModule) (func : PrimFunc) : IRModule :=
  m.setItem "main" func

/-- The pass-context dict built by `_build_runtime_module` on the CUDA
path: the two literal flags, updated/extended by `self.pass_context`
with Python dict-merge semantics. -/
def mergedPassContext (st : OpState) : List (String × Bool) :=
  st.pass_context.foldl (fun d kv => assocSet d kv.1 kv.2)
    [("tir.use_async_copy", true), ("tir.disable_cse_tir", true)]

/-- `Operator._build_runtime_module`. On the CUDA platform: returns
`None` early when no optimized module exists; otherwise builds it under
the merged pass context, catching any build exception (debug log, no
propagation). On every other platform: builds the resolved `prim_func`
with no exception containment. On a successful build the runtime
artifact, timing harness and torch adapter are installed; on CUDA the
standalone-library pipeline is additionally attempted inside its own
try/except (debug log on failure). -/
def Operator.build_runtime_module (o : BuildOracles) (st : OpState) :
    OpState × List LogMsg × Except String (Option RtMod) :=
  if st.platform = "CUDA" then
    match st.optimized_mod with
    | none => (st, [], .ok none)
    | some om =>
      match o.buildOpt om (mergedPassContext st) with
      | .error _e =>
        (st,
         [⟨.debug,
           BUILD_RUNTIME_LIBRARY_FAILED_MESSAGE st.cls st.target "optimized"
             "Failed to build optimized module"⟩],
         .ok none)
      | .ok rm =>
        let st1 := { st with rt_mod := some rm, time_evaluator := some rm,
                             torch_func := some rm }
        match o.libPipeline om with
        | .ok libHandle => ({ st1 with lib := some libHandle }, [], .ok (some rm))
        | .error e =>
          (st1, [⟨.debug, "Failed to build runtime library " ++ e⟩], .ok (some rm))
  else
    match prim_func_of st.prim_func_mod with
    | .error e => (st, [], .error e)
    | .ok f =>
      match o.buildPrim f with
      | .error e => (st, [], .error e)
      | .ok rm =>
        ({ st with rt_mod := some rm, time_evaluator := some rm,
                   torch_func := some rm },
         [], .ok (some rm))

/-- The body of the `try` block of `Operator._build_default_module`:
apply the default-schedule pipeline (oracle `sched`), assert exactly one
global variable, assert a `main` entry, generate the kernel name (oracle
`genName`; an absent generator or a raising `generate()` surfaces here),
rename and rewrap into a single-entry module. Any step may raise. -/
def Operator.build_default_module_inner (sched : Except String IRModule)
    (genName : Except String String) : Except String IRModule :=
  match sched with
  | .error e => .error e
  | .ok scheduled_mod =>
    if scheduled_mod.get_global_vars.length = 1 then
      match scheduled_mod.functions.lookup "main" with
      | some mainFn =>
        match genName with
        | .ok default_kernal_name =>
          .ok ⟨[(default_kernal_name,
                 mainFn.with_global_symbol default_kernal_name)]⟩
        | .error e => .error e
      | none =>
        .error "The optimized module should have a function named 'main' for default schedule."
    else
      .error "The optimized module should only have one global variable for default schedule."

/-- `Operator._build_default_module`: on success installs the rewrapped
optimized module; on any exception clears `optimized_mod` to `None` and
logs the warning, swallowing the exception. Either way it then calls
`_build_runtime_module`. -/
def Operator.build_default_module (sched : Except String IRModule)
    (genName : Except String String) (o : BuildOracles) (st : OpState) :
    OpState × List LogMsg × Except String (Option RtMod) :=
  match Operator.build_default_module_inner sched genName with
  | .ok om =>
    Operator.build_runtime_module o { st with optimized_mod := some om }
  | .error e =>
    let st1 := { st with optimized_mod := none }
    let warn : LogMsg :=
      ⟨.warning, APPLY_SCHEDULE_FAILED_MESSAGE st.cls st.target "default" e⟩
    match Operator.build_runtime_module o st1 with
    | (st2, logs, r) => (st2, warn :: logs, r)

/-- `Operator.apply_fast_tuning` given the result `best` of the external
`fast_tune` call: `self.pass_context = best.config.pass_context` runs
before the `best is not None` test, so a `None` best raises an attribute
error with the state unchanged; otherwise the captured pass context is
stored and `(best.sch.mod, best.config)` returned. -/
def Operator.apply_fast_tuning (best : Option TuneBest) (st : OpState) :
    OpState × Except String (Option IRModule × Option TuneConfig) :=
  match best with
  | none => (st, .error "AttributeError: NoneType object has no attribute config")
  | some b =>
    ({ st with pass_context := b.config.pass_context },
     .ok (some b.sch_mod, some b.config))

/-- `Operator.hardware_aware_finetune` with the external tuning calls
abstracted: `best` is the `fast_tune` outcome, `dynTuned` the
`fast_tune_with_dynamic_range` outcome, `genName` the kernel-name
generator applied to the best hint. Resolves `prim_func` first; then on
the dynamic-range path adopts `dynTuned` directly, otherwise runs
`apply_fast_tuning`, enforces the single-entry/`main` invariants,
renames and rewraps; finally builds the runtime module. -/
def Operator.hardware_aware_finetune (best : Option TuneBest)
    (dynTuned : Option IRModule) (genName : TuneConfig → Except String String)
    (o : BuildOracles) (st : OpState) :
    OpState × List LogMsg × Except String (Option RtMod) :=
  match prim_func_of st.prim_func_mod with
  | .error e => (st, [], .error e)
  | .ok _func =>
    match st.dynamic_range with
    | some _dr =>
      Operator.build_runtime_module o { st with optimized_mod := dynTuned }
    | none =>
      match Operator.apply_fast_tuning best st with
      | (st1, .error e) => (st1, [], .error e)
      | (st1, .ok (some scheduled_mod, some best_hint)) =>
        if scheduled_mod.get_global_vars.length = 1 then
          match scheduled_mod.functions.lookup "main" with
          | some mainFn =>
            match genName best_hint with
            | .ok default_kernal_name =>
              let om : IRModule :=
                ⟨[(default_kernal_name,
                   mainFn.with_global_symbol default_kernal_name)]⟩
              Operator.build_runtime_module o { st1 with optimized_mod := some om }
            | .error e => (st1, [], .error e)
          | none =>
            (st1, [],
             .error "The optimized module should have a function named 'main' for default schedule.")
        else
          (st1, [],
           .error "The optimized module should only have one global variable for default schedule.")
      | (st1, .ok (_, _)) =>
        (st1, [], .error "AttributeError: NoneType object has no attribute get_global_vars")

/-- `var_warpper` from `Operator.get_profile_tensors`, closure-converted:
resolves one shape expression to a concrete extent given the caller's
`dynamic_symbolic_constraints` and the function's `opt_shapes` attribute.
Returns the resolved value (or the raised error) together with the log
records it emits. Python `//` is floor division, embedded as `Int.fdiv`;
division by an empty candidate list raises. -/
def var_warpper (constraints : List (String × Int))
    (opt_shapes : Option (List (String × OptShapeEntry))) :
    ShapeExpr → Except String Int × List LogMsg
  | .var name =>
    match constraints.lookup name with
    | some v => (.ok v, [])
    | none =>
      match opt_shapes with
      | none => (.error "AssertionError", [])
      | some shapes =>
        match shapes.lookup name with
        | none => (.error "AssertionError", [])
        | some (.intImm v) => (.ok v, [])
        | some (.array values) =>
          if values.length = 0 then
            (.error "ZeroDivisionError: integer division or modulo by zero", [])
          else
            let avg_shape : Int :=
              Int.fdiv (values.foldl (· + ·) 0) (values.length : Int)
            (.ok avg_shape,
             [⟨.info,
               "Doesn't provide dynamic symbolic constrains for " ++ name ++
                 " when do benchmarking, use average shape " ++ toString avg_shape⟩])
        | some (.other typeName) =>
          (.error ("Not supported type: " ++ typeName), [])
  | .intImm v => (.ok v, [])
  | .other typeName => (.error ("Not supported type: " ++ typeName), [])

/-! ## `OPExecutorCPU` -/

/-- `OPExecutorCPU`: an ordered list of operators, each embedded as the
one-input/one-output function its `forward` computes. -/
structure OPExecutorCPU (α : Type) where
  operators : List (α → α)

/-- `OPExecutorCPU.append`. -/
def OPExecutorCPU.append {α : Type} (e : OPExecutorCPU α) (op : α → α) :
    OPExecutorCPU α :=
  ⟨e.operators ++ [op]⟩

/-- `OPExecutorCPU.is_none`: `len(self.operators) == 0`. -/
def OPExecutorCPU.is_empty {α : Type} (e : OPExecutorCPU α) : Bool :=
  e.operators.length = 0

/-- `OPExecutorCPU.size`. -/
def OPExecutorCPU.size {α : Type} (e : OPExecutorCPU α) : Nat :=
  e.operators.length

/-- `OPExecutorCPU.forward`: the loop keeps `inputs` a singleton list —
it starts as `[weight]` and each iteration rebinds it to
`[op.forward(*inputs)]`, finally returning `inputs[-1]`; the embedding
threads that single element directly through a left fold. -/
def OPExecutorCPU.forward {α : Type} (e : OPExecutorCPU α) (weight : α) : α :=
  e.operators.foldl (fun x op => op x) weight

/-! ## String containment (used to state the logging claims) -/

/-- `small` occurs as a contiguous substring of `big`. -/
def strContains (big small : String) : Prop :=
  small.data <:+: big.data

/-! ## Concrete fixtures used by witness theorems -/

/-- A target descriptor for a `gfx942` device. -/
def exTarget : TargetDesc := ⟨"gfx942", 4194304⟩

/-- A live-device probe result. -/
def exDevice : DeviceProps := ⟨true, 65536, 80, 32, "9.4"⟩

/-- The profile `RDNA.init exTarget exDevice` constructs. -/
def exRDNA : RDNA :=
  ⟨exTarget, 942, "RDNA", 65536, 80, 32, "94", 32768, 131072, 4, 4194304,
   [32, 128], [1300, 14000]⟩

/-- A sample primary function. -/
def fOld : PrimFunc := ⟨[], [], none, none, 0⟩

/-- A sample replacement function, distinct from `fOld`. -/
def fNew : PrimFunc := ⟨[], [], none, none, 1⟩

/-- A module with two global functions and no `main`. -/
def exTwoFuncMod : IRModule :=
  ⟨[("matmul_a", ⟨[], [], none, none, 0⟩), ("matmul_b", ⟨[], [], none, none, 1⟩)]⟩

/-- An operator state on the CUDA platform with an optimized module. -/
def stCUDA : OpState :=
  { cls := "MatmulNT", name := "matmul_nt", target := "cuda", platform := "CUDA",
    prim_func_mod := ⟨[("main", fOld)]⟩, optimized_mod := some ⟨[("main", fOld)]⟩,
    rt_mod := none, time_evaluator := none, torch_func := none, lib := none,
    pass_context := [], dynamic_range := none }

/-- An operator state on a non-CUDA platform. -/
def stHIP : OpState :=
  { cls := "MatmulNT", name := "matmul_nt", target := "hip", platform := "ROCm-CDNA2",
    prim_func_mod := ⟨[("main", fOld)]⟩, optimized_mod := none,
    rt_mod := none, time_evaluator := none, torch_func := none, lib := none,
    pass_context := [], dynamic_range := none }

/-- Build oracles whose compilations fail. -/
def failOracles : BuildOracles :=
  ⟨fun _ _ => .error "CompileError", fun _ => .error "CompileError", fun _ => .ok 0⟩

/-! ## Helper lemmas -/

theorem removeSubstrGfx_of_all_digits (l : List Char) (h : l.all Char.isDigit) :
    removeSubstrGfx l = l := by
  induction l using removeSubstrGfx.induct with
  | case1 rest ih => simp [List.all_cons] at h
  | case2 c rest hne ih =>
    simp only [List.all_cons, Bool.and_eq_true] at h
    unfold removeSubstrGfx
    split
    · next rest2 heq =>
      injection heq with h1 h2
      rw [h1] at h; simp at h
    · next c2 rest2 hne2 heq =>
      injection heq with h1 h2
      subst h1; subst h2
      rw [ih h.2]
    · next heq => simp at heq
  | case3 => rfl

theorem lookup_assocSet {β : Type} (d : List (String × β)) (k : String) (v : β) :
    (assocSet d k v).lookup k = some v := by
  unfold assocSet
  by_cases h : (d.lookup k).isSome
  · rw [if_pos h]
    induction d with
    | nil => simp at h
    | cons p rest ih =>
      obtain ⟨a, b⟩ := p
      by_cases hak : a = k
      · subst hak
        simp
      · have hb : (k == a) = false := beq_false_of_ne (Ne.symm hak)
        rw [List.map_cons, if_neg hak, List.lookup_cons, hb]
        rw [List.lookup_cons, hb] at h
        exact ih h
  · rw [if_neg h]
    rw [List.lookup_append]
    rw [Option.not_isSome_iff_eq_none] at h
    rw [h]
    simp

theorem mem_assocSet_of_ne {β : Type} (d : List (String × β)) (k : String) (v : β)
    (name : String) (b : β) (hne : name ≠ k) (hmem : (name, b) ∈ d) :
    (name, b) ∈ assocSet d k v := by
  unfold assocSet
  by_cases h : (d.lookup k).isSome
  · rw [if_pos h]
    have himg : (fun p : String × β => if p.1 = k then (k, v) else p) (name, b) = (name, b) := by
      simp [hne]
    exact himg ▸ List.mem_map_of_mem _ hmem
  · rw [if_neg h]
    exact List.mem_append_left _ hmem

theorem prim_func_of_of_lookup_main (l : List (String × PrimFunc)) (f : PrimFunc)
    (h : l.lookup "main" = some f) : prim_func_of ⟨l⟩ = .ok f := by
  match l with
  | [] => simp at h
  | [(a, b)] =>
    rw [List.lookup_cons] at h
    by_cases hm : ("main" == a) = true
    · rw [hm] at h
      have hb : b = f := by
        simpa using h
      subst hb
      rfl
    · rw [Bool.not_eq_true] at hm
      rw [hm] at h
      simp at h
  | (a, b) :: (c, d) :: rest =>
    simp only [prim_func_of]
    rw [h]

theorem strContains_of_eq (big a b c : String) (h : big = a ++ b ++ c) :
    strContains big b := by
  subst h
  exact ⟨a.data, c.data, rfl⟩

theorem contains_BUILD_msg (cls target hint err : String) :
    strContains (BUILD_RUNTIME_LIBRARY_FAILED_MESSAGE cls target hint err) cls
    ∧ strContains (BUILD_RUNTIME_LIBRARY_FAILED_MESSAGE cls target hint err) target
    ∧ strContains (BUILD_RUNTIME_LIBRARY_FAILED_MESSAGE cls target hint err) hint
    ∧ strContains (BUILD_RUNTIME_LIBRARY_FAILED_MESSAGE cls target hint err) err := by
  refine ⟨strContains_of_eq _ "Failed to build runtime library for operator " cls
      (" With target " ++ target ++ " and hint " ++ hint ++ ". \nThe error message: " ++
        err ++ " Please perform hardware-aware tuning manually.") ?_,
    strContains_of_eq _ ("Failed to build runtime library for operator " ++ cls ++ " With target ")
      target (" and hint " ++ hint ++ ". \nThe error message: " ++ err ++
        " Please perform hardware-aware tuning manually.") ?_,
    strContains_of_eq _ ("Failed to build runtime library for operator " ++ cls ++
        " With target " ++ target ++ " and hint ") hint (". \nThe error message: " ++ err ++
        " Please perform hardware-aware tuning manually.") ?_,
    strContains_of_eq _ ("Failed to build runtime library for operator " ++ cls ++
        " With target " ++ target ++ " and hint " ++ hint ++ ". \nThe error message: ") err
      " Please perform hardware-aware tuning manually." ?_⟩ <;>
    simp [BUILD_RUNTIME_LIBRARY_FAILED_MESSAGE, String.append_assoc]

theorem contains_APPLY_msg (cls target hint err : String) :
    strContains (APPLY_SCHEDULE_FAILED_MESSAGE cls target hint err) cls
    ∧ strContains (APPLY_SCHEDULE_FAILED_MESSAGE cls target hint err) target
    ∧ strContains (APPLY_SCHEDULE_FAILED_MESSAGE cls target hint err) hint
    ∧ strContains (APPLY_SCHEDULE_FAILED_MESSAGE cls target hint err) err := by
  refine ⟨strContains_of_eq _ "Failed to apply default schedule for operator " cls
      (" With target " ++ target ++ " and hint " ++ hint ++ ". \nThe error message: " ++
        err ++ " Please perform hardware-aware tuning manually.") ?_,
    strContains_of_eq _ ("Failed to apply default schedule for operator " ++ cls ++ " With target ")
      target (" and hint " ++ hint ++ ". \nThe error message: " ++ err ++
        " Please perform hardware-aware tuning manually.") ?_,
    strContains_of_eq _ ("Failed to apply default schedule for operator " ++ cls ++
        " With target " ++ target ++ " and hint ") hint (". \nThe error message: " ++ err ++
        " Please perform hardware-aware tuning manually.") ?_,
    strContains_of_eq _ ("Failed to apply default schedule for operator " ++ cls ++
        " With target " ++ target ++ " and hint " ++ hint ++ ". \nThe error message: ") err
      " Please perform hardware-aware tuning manually." ?_⟩ <;>
    simp [APPLY_SCHEDULE_FAILED_MESSAGE, String.append_assoc]

theorem build_runtime_module_keeps_optimized_mod (o : BuildOracles) (st : OpState) :
    (Operator.build_runtime_module o st).1.optimized_mod = st.optimized_mod := by
  unfold Operator.build_runtime_module
  split
  · split
    · rfl
    · split
      · rfl
      · split
        · rfl
        · rfl
  · split
    · rfl
    · split
      · rfl
      · rfl

/-! ## Claim theorems -/

/-- Claim C1: if the default-schedule pipeline of `_build_default_module`
raises at any point — the schedule application itself, the
exactly-one-global-function assert, the `main`-entry assert, or
kernel-name generation (each shown to surface as an error of the inner
try-block) — then the operator's optimized module is set to `None`, a
warning is logged whose message contains the operator class, the target,
the hint `"default"` and the causing error, the exception is not
propagated, and the runtime-module build is still attempted on the
cleared state (the call's outcome is exactly that build's outcome, with
the warning prepended to its log). -/
theorem C1_default_schedule_failure_contained (sched : Except String IRModule)
    (genName : Except String String) (o : BuildOracles) (st : OpState) (e : String)
    (h : Operator.build_default_module_inner sched genName = .error e) :
    Operator.build_default_module sched genName o st =
      ((Operator.build_runtime_module o { st with optimized_mod := none }).1,
       ⟨.warning, APPLY_SCHEDULE_FAILED_MESSAGE st.cls st.target "default" e⟩ ::
         (Operator.build_runtime_module o { st with optimized_mod := none }).2.1,
       (Operator.build_runtime_module o { st with optimized_mod := none }).2.2)
    ∧ (Operator.build_default_module sched genName o st).1.optimized_mod = none
    ∧ strContains (APPLY_SCHEDULE_FAILED_MESSAGE st.cls st.target "default" e) st.cls
    ∧ strContains (APPLY_SCHEDULE_FAILED_MESSAGE st.cls st.target "default" e) st.target
    ∧ strContains (APPLY_SCHEDULE_FAILED_MESSAGE st.cls st.target "default" e) "default"
    ∧ strContains (APPLY_SCHEDULE_FAILED_MESSAGE st.cls st.target "default" e) e
    ∧ (∀ m : IRModule, m.get_global_vars.length ≠ 1 →
        Operator.build_default_module_inner (.ok m) genName =
          .error "The optimized module should only have one global variable for default schedule.")
    ∧ (∀ m : IRModule, m.get_global_vars.length = 1 → m.functions.lookup "main" = none →
        Operator.build_default_module_inner (.ok m) genName =
          .error "The optimized module should have a function named 'main' for default schedule.")
    ∧ (∀ (m : IRModule) (fn : PrimFunc) (g : String), m.get_global_vars.length = 1 →
        m.functions.lookup "main" = some fn →
        Operator.build_default_module_inner (.ok m) (.error g) = .error g) := by
  have hmain : Operator.build_default_module sched genName o st =
      ((Operator.build_runtime_module o { st with optimized_mod := none }).1,
       ⟨.warning, APPLY_SCHEDULE_FAILED_MESSAGE st.cls st.target "default" e⟩ ::
         (Operator.build_runtime_module o { st with optimized_mod := none }).2.1,
       (Operator.build_runtime_module o { st with optimized_mod := none }).2.2) := by
    unfold Operator.build_default_module
    rw [h]
  have hopt : (Operator.build_default_module sched genName o st).1.optimized_mod = none := by
    rw [hmain]
    exact build_runtime_module_keeps_optimized_mod o { st with optimized_mod := none }
  refine ⟨hmain, hopt, (contains_APPLY_msg st.cls st.target "default" e).1,
    (contains_APPLY_msg st.cls st.target "default" e).2.1,
    (contains_APPLY_msg st.cls st.target "default" e).2.2.1,
    (contains_APPLY_msg st.cls st.target "default" e).2.2.2, ?_, ?_, ?_⟩
  · intro m hm
    simp only [Operator.build_default_module_inner]
    rw [if_neg hm]
  · intro m hm hnomain
    simp only [Operator.build_default_module_inner]
    rw [if_pos hm, hnomain]
  · intro m fn g hm hfn
    simp only [Operator.build_default_module_inner]
    rw [if_pos hm, hfn]

/-- Witness for C1 at a concrete failing schedule pipeline on a concrete
CUDA operator state. -/
theorem C1_default_schedule_failure_contained_witness :
    Operator.build_default_module (.error "ScheduleError") (.ok "kernel_0") failOracles stCUDA =
      ((Operator.build_runtime_module failOracles { stCUDA with optimized_mod := none }).1,
       ⟨.warning, APPLY_SCHEDULE_FAILED_MESSAGE "MatmulNT" "cuda" "default" "ScheduleError"⟩ ::
         (Operator.build_runtime_module failOracles { stCUDA with optimized_mod := none }).2.1,
       (Operator.build_runtime_module failOracles { stCUDA with optimized_mod := none }).2.2)
    ∧ (Operator.build_default_module (.error "ScheduleError") (.ok "kernel_0") failOracles
        stCUDA).1.optimized_mod = none :=
  ⟨(C1_default_schedule_failure_contained (.error "ScheduleError") (.ok "kernel_0")
      failOracles stCUDA "ScheduleError" rfl).1,
   (C1_default_schedule_failure_contained (.error "ScheduleError") (.ok "kernel_0")
      failOracles stCUDA "ScheduleError" rfl).2.1⟩

/-- Claim C2: the `prim_func` accessor returns the unique global function
when the module has exactly one (whatever its name); otherwise it returns
the function named `main` when one exists; otherwise it fails with the
cannot-determine-primary-function error — in particular every module with
several global functions and no `main` fails. -/
theorem C2_prim_func_resolution :
    (∀ (name : String) (f : PrimFunc), prim_func_of ⟨[(name, f)]⟩ = .ok f)
    ∧ (∀ (m : IRModule) (f : PrimFunc), m.functions.length ≠ 1 →
        m.functions.lookup "main" = some f → prim_func_of m = .ok f)
    ∧ (∀ m : IRModule, m.functions.length ≠ 1 →
        m.functions.lookup "main" = none →
        prim_func_of m = .error "Unable to determine primary function.") := by
  refine ⟨fun name f => rfl, ?_, ?_⟩
  · intro m f hlen hmain
    obtain ⟨fs⟩ := m
    match fs with
    | [] => simp at hmain
    | [(a, b)] => simp at hlen
    | (a, b) :: (c, d) :: rest =>
      simp only [prim_func_of]
      rw [hmain]
  · intro m hlen hmain
    obtain ⟨fs⟩ := m
    match fs with
    | [] => rfl
    | [(a, b)] => simp at hlen
    | (a, b) :: (c, d) :: rest =>
      simp only [prim_func_of]
      rw [hmain]

/-- Witness for C2 on a concrete module with two global functions and no
`main`. -/
theorem C2_prim_func_resolution_witness :
    prim_func_of exTwoFuncMod = .error "Unable to determine primary function." :=
  C2_prim_func_resolution.2.2 exTwoFuncMod (by decide) rfl

/-- Claim C3: `_build_runtime_module` contains failures asymmetrically by
platform. On the CUDA platform a failing build of the optimized module is
caught: the call returns normally with a debug-level log whose message
names the operator class, the target and the `"optimized"` hint, and the
state (hence the absent runtime artifact) is unchanged. On every other
platform a failing build of the primary definition propagates the error
unchanged to the caller. -/
theorem C3_build_runtime_module_platform_asymmetry :
    (∀ (o : BuildOracles) (st : OpState) (om : IRModule) (e : String),
      st.platform = "CUDA" → st.optimized_mod = some om →
      o.buildOpt om (mergedPassContext st) = .error e →
      Operator.build_runtime_module o st =
        (st,
         [⟨.debug,
           BUILD_RUNTIME_LIBRARY_FAILED_MESSAGE st.cls st.target "optimized"
             "Failed to build optimized module"⟩],
         .ok none))
    ∧ (∀ (o : BuildOracles) (st : OpState) (f : PrimFunc) (e : String),
      st.platform ≠ "CUDA" → prim_func_of st.prim_func_mod = .ok f →
      o.buildPrim f = .error e →
      Operator.build_runtime_module o st = (st, [], .error e))
    ∧ (∀ cls target : String,
      strContains (BUILD_RUNTIME_LIBRARY_FAILED_MESSAGE cls target "optimized"
        "Failed to build optimized module") cls
      ∧ strContains (BUILD_RUNTIME_LIBRARY_FAILED_MESSAGE cls target "optimized"
        "Failed to build optimized module") target
      ∧ strContains (BUILD_RUNTIME_LIBRARY_FAILED_MESSAGE cls target "optimized"
        "Failed to build optimized module") "optimized") := by
  refine ⟨?_, ?_, ?_⟩
  · intro o st om e hp hm hb
    simp only [Operator.build_runtime_module, hp, if_true, hm, hb]
  · intro o st f e hp hf hb
    simp only [Operator.build_runtime_module, if_neg hp, hf, hb]
  · intro cls target
    exact ⟨(contains_BUILD_msg cls target "optimized" "Failed to build optimized module").1,
      (contains_BUILD_msg cls target "optimized" "Failed to build optimized module").2.1,
      (contains_BUILD_msg cls target "optimized" "Failed to build optimized module").2.2.1⟩

/-- Witness for C3: a failing build on the concrete CUDA state is
swallowed with the debug log; the same failing build on the concrete
non-CUDA state propagates. -/
theorem C3_build_runtime_module_platform_asymmetry_witness :
    Operator.build_runtime_module failOracles stCUDA =
      (stCUDA,
       [⟨.debug,
         BUILD_RUNTIME_LIBRARY_FAILED_MESSAGE "MatmulNT" "cuda" "optimized"
           "Failed to build optimized module"⟩],
       .ok none)
    ∧ Operator.build_runtime_module failOracles stHIP = (stHIP, [], .error "CompileError") :=
  ⟨C3_build_runtime_module_platform_asymmetry.1 failOracles stCUDA ⟨[("main", fOld)]⟩
     "CompileError" rfl rfl rfl,
   C3_build_runtime_module_platform_asymmetry.2.1 failOracles stHIP fOld "CompileError"
     (by decide) rfl rfl⟩

/-- Counterexample to claim C4 as stated: on the candidate list
`[-1, -2]` the code computes the Python floor-divided mean
`(-1 + -2) // 2 = -2`, while the integer-truncated mean the claim
describes is `Int.tdiv (-3) 2 = -1`; the two differ. -/
theorem C4_avg_shape_truncation_counterexample :
    (var_warpper [] (some [("n", .array [-1, -2])]) (.var "n")).1 = .ok (-2)
    ∧ Int.tdiv (-1 + -2) 2 = -1
    ∧ ((-2 : Int) ≠ -1) := by
  refine ⟨rfl, by decide, by decide⟩

/-- Claim C4 (amended: the mean of a candidate list is the floor-divided
— Python `//` — mean, not the truncated one): `var_warpper` resolves a
symbolic dimension in strict priority order — a caller-supplied
constraint first; else the single recorded opt-shape value; else, for a
nonempty recorded candidate list, its floor-divided mean together with an
informational log naming the variable and the substituted value; any
other opt-shape entry type fails with an unsupported-type error naming
the offending type. Concretely, candidates {64, 128, 192} with no
override resolve to 128. -/
theorem C4_var_warpper_priority_amended :
    (∀ (cs : List (String × Int)) (os : Option (List (String × OptShapeEntry)))
        (name : String) (v : Int), cs.lookup name = some v →
        var_warpper cs os (.var name) = (.ok v, []))
    ∧ (∀ (cs : List (String × Int)) (shapes : List (String × OptShapeEntry))
        (name : String) (v : Int), cs.lookup name = none →
        shapes.lookup name = some (.intImm v) →
        var_warpper cs (some shapes) (.var name) = (.ok v, []))
    ∧ (∀ (cs : List (String × Int)) (shapes : List (String × OptShapeEntry))
        (name : String) (vals : List Int), cs.lookup name = none →
        shapes.lookup name = some (.array vals) → vals ≠ [] →
        var_warpper cs (some shapes) (.var name) =
          (.ok (Int.fdiv (vals.foldl (· + ·) 0) (vals.length : Int)),
           [⟨.info, "Doesn't provide dynamic symbolic constrains for " ++ name ++
              " when do benchmarking, use average shape " ++
              toString (Int.fdiv (vals.foldl (· + ·) 0) (vals.length : Int))⟩]))
    ∧ (∀ (cs : List (String × Int)) (shapes : List (String × OptShapeEntry))
        (name : String) (t : String), cs.lookup name = none →
        shapes.lookup name = some (.other t) →
        var_warpper cs (some shapes) (.var name) =
          (.error ("Not supported type: " ++ t), []))
    ∧ (var_warpper [] (some [("n", .array [64, 128, 192])]) (.var "n")).1 = .ok 128 := by
  refine ⟨?_, ?_, ?_, ?_, rfl⟩
  · intro cs os name v hcs
    simp only [var_warpper]
    rw [hcs]
  · intro cs shapes name v hcs hsh
    simp only [var_warpper]
    rw [hcs, hsh]
  · intro cs shapes name vals hcs hsh hne
    simp only [var_warpper]
    rw [hcs, hsh]
    simp [List.length_eq_zero, hne]
  · intro cs shapes name t hcs hsh
    simp only [var_warpper]
    rw [hcs, hsh]

/-- Witness for C4 at the claim's own example: candidates 64, 128, 192
with no override resolve to 128, with the informational log. -/
theorem C4_var_warpper_priority_amended_witness :
    var_warpper [] (some [("n", OptShapeEntry.array [64, 128, 192])]) (.var "n") =
      (.ok 128,
       [⟨.info,
         "Doesn't provide dynamic symbolic constrains for n when do benchmarking, use average shape 128"⟩]) := by
  have h := C4_var_warpper_priority_amended.2.2.1 []
    [("n", OptShapeEntry.array [64, 128, 192])] "n" [64, 128, 192] rfl rfl (by decide)
  exact h

/-- Claim C5: `OPExecutorCPU.forward` on an empty operator list is the
identity on its input; on a chain it feeds the external input to the
first operator and each operator's single output to the next, returning
the last output — shown by the head/tail and last-stage unfoldings and by
an instrumented run in which each labelled operator appends its label,
so the final trace lists every operator exactly once in append order. -/
theorem C5_opexecutor_forward_chain :
    (∀ (α : Type) (w : α), OPExecutorCPU.forward ⟨[]⟩ w = w)
    ∧ (∀ (α : Type) (f : α → α) (ops : List (α → α)) (w : α),
        OPExecutorCPU.forward ⟨f :: ops⟩ w = OPExecutorCPU.forward ⟨ops⟩ (f w))
    ∧ (∀ (α : Type) (ops : List (α → α)) (f : α → α) (w : α),
        OPExecutorCPU.forward ⟨ops ++ [f]⟩ w = f (OPExecutorCPU.forward ⟨ops⟩ w))
    ∧ (∀ (labels : List Nat) (w : List Nat),
        OPExecutorCPU.forward ⟨labels.map (fun l => (· ++ [l]))⟩ w = w ++ labels) := by
  refine ⟨fun α w => rfl, fun α f ops w => rfl, ?_, ?_⟩
  · intro α ops f w
    unfold OPExecutorCPU.forward
    simp [List.foldl_append]
  · intro labels
    induction labels with
    | nil => intro w; simp [OPExecutorCPU.forward]
    | cons l ls ih =>
      intro w
      have h1 : OPExecutorCPU.forward ⟨((l :: ls).map (fun l => (· ++ [l])))⟩ w =
          OPExecutorCPU.forward ⟨ls.map (fun l => (· ++ [l]))⟩ (w ++ [l]) := rfl
      rw [h1, ih (w ++ [l]), List.append_assoc]
      rfl

/-- Counterexample to claim C6 as stated: `update_func` on a module whose
single entry point is named `custom_entry` leaves that old entry in place
as a second global function next to the newly installed `main`, so the
module does retain the old entry point. -/
theorem C6_update_func_counterexample :
    (Operator.update_func ⟨[("custom_entry", fOld)]⟩ fNew).functions.lookup "custom_entry"
      = some fOld
    ∧ (Operator.update_func ⟨[("custom_entry", fOld)]⟩ fNew).get_global_vars.length = 2
    ∧ fOld ≠ fNew := by
  refine ⟨by decide, by decide, by decide⟩

/-- Claim C6 (amended: `update_func` installs the replacement under the
entry name `main`, overwriting an existing `main`; the primary definition
then resolves to the replacement, but an original entry point carrying
any other name is retained as an additional global function). -/
theorem C6_update_func_amended (m : IRModule) (f : PrimFunc) :
    prim_func_of (Operator.update_func m f) = .ok f
    ∧ (Operator.update_func m f).functions.lookup "main" = some f
    ∧ (∀ (name : String) (g : PrimFunc), name ≠ "main" → (name, g) ∈ m.functions →
        (name, g) ∈ (Operator.update_func m f).functions) := by
  refine ⟨?_, ?_, ?_⟩
  · exact prim_func_of_of_lookup_main _ f (lookup_assocSet m.functions "main" f)
  · exact lookup_assocSet m.functions "main" f
  · intro name g hne hmem
    exact mem_assocSet_of_ne m.functions "main" f name g hne hmem

/-- Witness for C6 on the concrete single-entry module named
`custom_entry`: the old entry stays a member and `prim_func` resolves to
the replacement. -/
theorem C6_update_func_amended_witness :
    ("custom_entry", fOld) ∈ (Operator.update_func ⟨[("custom_entry", fOld)]⟩ fNew).functions
    ∧ prim_func_of (Operator.update_func ⟨[("custom_entry", fOld)]⟩ fNew) = .ok fNew :=
  ⟨(C6_update_func_amended ⟨[("custom_entry", fOld)]⟩ fNew).2.2 "custom_entry" fOld
     (by decide) (by decide),
   (C6_update_func_amended ⟨[("custom_entry", fOld)]⟩ fNew).1⟩

/-- Counterexample to claim C7 as stated: the code deletes every
occurrence of `"gfx"` (Python `str.replace`), not only a leading prefix,
so on `"gfxgfx1"` it returns 1 whereas stripping only the prefix leaves
`"gfx1"`, which is not purely digits and would give the −1 the claim
describes. -/
theorem C7_check_gfx_version_counterexample :
    check_gfx_version "gfxgfx1" = 1 ∧ check_gfx_version_prefix_spec "gfxgfx1" = -1 := by
  refine ⟨by decide, by decide⟩

/-- Claim C7 (amended: the parser removes every occurrence of the literal
substring `gfx` — in particular a leading prefix — and converts the
remainder to an integer when it is purely digits, returning the −1
sentinel otherwise); concretely `gfx90a` yields −1, `gfx942` yields 942,
and `gfxgfx1` yields 1. -/
theorem C7_check_gfx_version_amended :
    (∀ ds : List Char, ds ≠ [] → ds.all Char.isDigit →
      check_gfx_version ⟨'g' :: 'f' :: 'x' :: ds⟩ = (digitsToNat ds : Int))
    ∧ (∀ arch : String, pyIsDigit ⟨removeSubstrGfx arch.data⟩ = false →
      check_gfx_version arch = -1)
    ∧ check_gfx_version "gfx90a" = -1 ∧ check_gfx_version "gfx942" = 942
    ∧ check_gfx_version "gfxgfx1" = 1 := by
  refine ⟨?_, ?_, by decide, by decide, by decide⟩
  · intro ds hne hdig
    have h1 : removeSubstrGfx ('g' :: 'f' :: 'x' :: ds) = ds := by
      unfold removeSubstrGfx
      exact removeSubstrGfx_of_all_digits ds hdig
    unfold check_gfx_version
    simp only [h1]
    have h2 : pyIsDigit ⟨ds⟩ = true := by
      unfold pyIsDigit
      simp [hne, hdig]
    rw [h2]
    simp
  · intro arch h
    unfold check_gfx_version
    simp only []
    rw [h]
    simp

/-- Witness for C7 on the all-digit suffix 942. -/
theorem C7_check_gfx_version_amended_witness :
    check_gfx_version ⟨'g' :: 'f' :: 'x' :: ['9', '4', '2']⟩ =
      (digitsToNat ['9', '4', '2'] : Int) :=
  C7_check_gfx_version_amended.1 ['9', '4', '2'] (by decide) (by decide)

/-- Claim C8: every successfully constructed RDNA profile has its
shared-memory usage budget equal to exactly twice the probed per-block
shared-memory capacity; a Lean structure is immutable, so the relation
holds for the profile's lifetime. -/
theorem C8_rdna_max_smem_usage (t : TargetDesc) (d : DeviceProps) (r : RDNA)
    (h : RDNA.init t d = .ok r) : r.max_smem_usage = 2 * r.smem_cap := by
  unfold RDNA.init at h
  cases hd : d.exist with
  | false => rw [hd] at h; simp at h
  | true =>
    rw [hd] at h
    simp only [Bool.not_true, Bool.false_eq_true, if_false, Except.ok.injEq] at h
    rw [← h]

/-- Witness for C8 on a concrete probed device with 65536 bytes of shared
memory per block. -/
theorem C8_rdna_max_smem_usage_witness :
    RDNA.init exTarget exDevice = .ok exRDNA
    ∧ exRDNA.max_smem_usage = 2 * exRDNA.smem_cap :=
  ⟨rfl, C8_rdna_max_smem_usage exTarget exDevice exRDNA rfl⟩

/-- Claim C9: constructing the runtime-probed RDNA profile when HIP
device 0 does not exist fails with the device-not-found error and
returns no profile value; the fixed MI250 profile is a total constant —
its construction probes nothing, cannot fail, and carries the hardcoded
capacities. -/
theorem C9_construction_failure_modes :
    (∀ (t : TargetDesc) (d : DeviceProps), d.exist = false →
      RDNA.init t d = .error "Cannot find HIP device 0.")
    ∧ MI250.init.smem_cap = 65536 ∧ MI250.init.max_smem_usage = 0
    ∧ MI250.init.platform = "ROCm-CDNA2" ∧ MI250.init.compute_capability = "gfx90a" := by
  refine ⟨?_, rfl, rfl, rfl, rfl⟩
  intro t d h
  unfold RDNA.init
  rw [h]
  rfl

/-- Witness for C9 on a concrete absent device. -/
theorem C9_construction_failure_modes_witness :
    RDNA.init exTarget ⟨false, 0, 0, 0, ""⟩ = .error "Cannot find HIP device 0." :=
  C9_construction_failure_modes.1 exTarget ⟨false, 0, 0, 0, ""⟩ rfl

/-- Claim C10: when the external fast-tune search returns no best result,
`apply_fast_tuning` raises (the pass context is read off the absent best
result before the `None` check) with the operator state unchanged, and
`hardware_aware_finetune` on the non-dynamic-range path propagates that
exception, likewise leaving the stored optimized module and pass context
exactly as they were. -/
theorem C10_fast_tune_none_raises :
    (∀ st : OpState,
      Operator.apply_fast_tuning none st =
        (st, .error "AttributeError: NoneType object has no attribute config"))
    ∧ (∀ (dynTuned : Option IRModule) (genName : TuneConfig → Except String String)
        (o : BuildOracles) (st : OpState) (f : PrimFunc),
        st.dynamic_range = none → prim_func_of st.prim_func_mod = .ok f →
        Operator.hardware_aware_finetune none dynTuned genName o st =
          (st, [], .error "AttributeError: NoneType object has no attribute config")) := by
  constructor
  · intro st
    rfl
  · intro dynTuned genName o st f hdr hpf
    simp only [Operator.hardware_aware_finetune, hpf, hdr, Operator.apply_fast_tuning]

/-- Witness for C10 on the concrete CUDA operator state: the tuning call
errors and the returned state is the input state, optimized module and
pass context included. -/
theorem C10_fast_tune_none_raises_witness :
    Operator.hardware_aware_finetune none none (fun _ => .ok "kernel_0") failOracles stCUDA =
      (stCUDA, [], .error "AttributeError: NoneType object has no attribute config") :=
  C10_fast_tune_none_raises.2 none (fun _ => .ok "kernel_0") failOracles stCUDA fOld rfl rfl

end BitBLAS
